import Mathlib

/-!
Shallow embedding of the agent module (src/agent.py): a keyword classifier,
five prompt strategies over one HTTP chat-completion transport, an answer
extractor, and a dispatcher with a single direct-strategy fallback.

The transport is modelled as an oracle mapping the index of the HTTP call to
the outcome of that call (a transport fault or a response with status,
headers and body).  Python exceptions are modelled with Except; a value of
Except.error that escapes a function models an exception propagating out of
the corresponding Python function.  Machine details that no claim touches
(unicode case folding beyond ASCII, repr escaping inside error bodies) are
modelled at ASCII fidelity and noted where they occur.
-/

namespace Agent

/-- Python values as produced by JSON decoding of a response body. -/
inductive PyVal where
  | vNone
  | vBool (b : Bool)
  | vInt (n : Int)
  | vStr (s : String)
  | vList (xs : List PyVal)
  | vDict (kvs : List (String × PyVal))

mutual

/-- Model of Python repr on decoded JSON values.  String escaping inside
nested values is simplified to plain quoting; no claim depends on it. -/
def pyRepr : PyVal → String
  | .vNone => "None"
  | .vBool b => if b then "True" else "False"
  | .vInt n => toString n
  | .vStr s => "\x27" ++ s ++ "\x27"
  | .vList xs => "[" ++ pyReprList xs ++ "]"
  | .vDict kvs => "\x7b" ++ pyReprDict kvs ++ "\x7d"

def pyReprList : List PyVal → String
  | [] => ""
  | [x] => pyRepr x
  | x :: y :: xs => pyRepr x ++ ", " ++ pyReprList (y :: xs)

def pyReprDict : List (String × PyVal) → String
  | [] => ""
  | [(k, v)] => "\x27" ++ k ++ "\x27: " ++ pyRepr v
  | (k, v) :: y :: kvs => "\x27" ++ k ++ "\x27: " ++ pyRepr v ++ ", " ++ pyReprDict (y :: kvs)

end

/-- Model of Python str applied to a decoded JSON value: a str is returned
unchanged, every other value goes through repr. -/
def pyToStr : PyVal → String
  | .vStr s => s
  | v => pyRepr v

/-- The ASCII whitespace characters recognised by str.strip and by the
regex class backslash-s. -/
def pyWS (c : Char) : Bool :=
  c == ' ' || c == '\t' || c == '\n' || c == '\r' || c == '\x0b' || c == '\x0c'

def dropLeadWS : List Char → List Char
  | [] => []
  | c :: cs => if pyWS c then dropLeadWS cs else c :: cs

def dropTrailWS (l : List Char) : List Char := (dropLeadWS l.reverse).reverse

def stripL (l : List Char) : List Char := dropTrailWS (dropLeadWS l)

/-- Model of the Python str.strip method with no arguments. -/
def pyStrip (s : String) : String := String.mk (stripL s.data)

/-- Character-wise ASCII lowering, modelling str.lower on the inputs the
claims range over. -/
def lowerL (l : List Char) : List Char := l.map Char.toLower

/-- Index of the leftmost occurrence of needle in hay, modelling the
leftmost-match rule of re.search. -/
def findSub (needle : List Char) : List Char → Option Nat
  | [] => if needle.isPrefixOf ([] : List Char) then some 0 else none
  | c :: rest =>
    if needle.isPrefixOf (c :: rest) then some 0
    else (findSub needle rest).map (· + 1)

/-- Model of the Python substring test, as in: kw in q. -/
def containsSub (hay : List Char) (kw : String) : Bool := (findSub kw.data hay).isSome

/-- The literal part of the extraction pattern, lowered for the
case-insensitive search. -/
def finalAnswerMarker : List Char := "final answer:".data

/-- extract_final_answer from src/agent.py: search case-insensitively for
the marker, return the trimmed remainder after it (the regex consumes
whitespace after the colon and the captured group is stripped), else the
trimmed input; an empty input short-circuits to the empty string. -/
def extract_final_answer (text : String) : String :=
  if text = "" then ""
  else
    match findSub finalAnswerMarker (lowerL text.data) with
    | some i => String.mk (stripL (dropLeadWS (text.data.drop (i + finalAnswerMarker.length))))
    | none => pyStrip text

/-- One chat-completion HTTP request as issued by call_model_chat_completions.
Every call site passes temperature zero and the default timeout and neither
value influences the returned record, so they are omitted here. -/
structure Request where
  prompt : String
  system : String
  maxTokens : Nat
  deriving DecidableEq

/-- The dict returned by call_model_chat_completions, with the keys ok,
text, raw, status, error, headers.  text and raw hold decoded JSON values
(vNone models Python None); error holds None or a str. -/
structure CallResult where
  ok : Bool
  text : PyVal
  raw : PyVal
  status : Int
  error : Option String
  headers : List (String × String)

/-- What the HTTP layer does for one requests.post call: either raise a
requests.RequestException carrying a description, or deliver a response
with a status code, headers, the outcome of resp.json() (Except.error for
a JSON decode failure, which in requests is itself a RequestException
subclass), and resp.text. -/
inductive TransportOutcome where
  | fault (desc : String)
  | response (status : Int) (headers : List (String × String))
      (body : Except String PyVal) (rawText : String)

/-- The environment: outcome of the n-th HTTP call of a run. -/
def Oracle := Nat → TransportOutcome

/-- Python v.get(k, dflt): dict lookup with default, AttributeError on any
non-dict receiver. -/
def pyGet (v : PyVal) (k : String) (dflt : PyVal) : Except String PyVal :=
  match v with
  | .vDict kvs => .ok ((List.lookup k kvs).getD dflt)
  | .vNone => .error "\x27NoneType\x27 object has no attribute \x27get\x27"
  | .vBool _ => .error "\x27bool\x27 object has no attribute \x27get\x27"
  | .vInt _ => .error "\x27int\x27 object has no attribute \x27get\x27"
  | .vStr _ => .error "\x27str\x27 object has no attribute \x27get\x27"
  | .vList _ => .error "\x27list\x27 object has no attribute \x27get\x27"

/-- Python v[0] on a decoded JSON value. -/
def pySub0 : PyVal → Except String PyVal
  | .vList (x :: _) => .ok x
  | .vList [] => .error "list index out of range"
  | .vStr s =>
    match s.data with
    | [] => .error "string index out of range"
    | c :: _ => .ok (.vStr (String.mk [c]))
  | .vDict _ => .error "KeyError: 0"
  | .vNone => .error "\x27NoneType\x27 object is not subscriptable"
  | .vBool _ => .error "\x27bool\x27 object is not subscriptable"
  | .vInt _ => .error "\x27int\x27 object is not subscriptable"

/-- The navigation data.get("choices", [vDict []])[0].get("message", vDict
[]).get("content", vStr "") performed in the 200 branch.  An Except.error
models a non-RequestException (AttributeError, IndexError, KeyError) that
propagates out of call_model_chat_completions. -/
def extractContent (data : PyVal) : Except String PyVal := do
  let choices ← pyGet data "choices" (.vList [.vDict []])
  let first ← pySub0 choices
  let message ← pyGet first "message" (.vDict [])
  pyGet message "content" (.vStr "")

/-- Result component of call_model_chat_completions from src/agent.py.
The fault arm models the except requests.RequestException branch (status
-1, empty headers, error text from the exception); a JSON decode failure
on a 200 response is a RequestException subclass in requests and lands in
the same branch.  On a non-200 status the error text prefers the decoded
JSON body (through str) and falls back to resp.text. -/
def cmc_result (o : Oracle) (n : Nat) (prompt system : String) (maxTokens : Nat) :
    Except String CallResult :=
  match o n with
  | .fault d => .ok ⟨false, .vNone, .vNone, -1, some d, []⟩
  | .response status hdrs body rawText =>
    if status = 200 then
      match body with
      | .ok data =>
        match extractContent data with
        | .ok t => .ok ⟨true, t, data, status, none, hdrs⟩
        | .error e => .error e
      | .error e => .ok ⟨false, .vNone, .vNone, -1, some e, []⟩
    else
      let errText := match body with
        | .ok v => pyToStr v
        | .error _ => rawText
      .ok ⟨false, .vNone, .vNone, status, some errText, hdrs⟩

/-- call_model_chat_completions paired with the single HTTP request it
issues (the request is posted before any branching, so the trace is the
same on every path). -/
def call_model_chat_completions (o : Oracle) (n : Nat) (prompt system : String)
    (maxTokens : Nat) : Except String CallResult × List Request :=
  (cmc_result o n prompt system maxTokens, [⟨prompt, system, maxTokens⟩])

/-- System prompt used by the direct strategy. -/
def directSystem : String :=
  "You are a helpful assistant, reply with only the final answer and give no explanations."

/-- Default system prompt of call_model_chat_completions, used by the
chain-of-thought and self-refine strategies. -/
def defaultSystem : String :=
  "You are a helpful assistant. Reply with only the final answer—no explanation."

/-- System prompt used by the coding strategy (the source concatenates two
adjacent string literals). -/
def codingSystem : String :=
  "You are a Python coding assistant. Return ONLY valid Python code that solves the task, no explanations, no comments outside the code blocks."

/-- System prompt used by the prediction strategy. -/
def predictionSystem : String :=
  "You are an assistant that predicts future events. You MUST make a single clear prediction and ensure the final line ends with exactly one LaTeX-style box: [\x7bYOUR_PREDICTION\x7d]."

/-- The str of the AttributeError raised by .strip() on a non-str value. -/
def stripAttrMsg : PyVal → String
  | .vNone => "\x27NoneType\x27 object has no attribute \x27strip\x27"
  | .vBool _ => "\x27bool\x27 object has no attribute \x27strip\x27"
  | .vInt _ => "\x27int\x27 object has no attribute \x27strip\x27"
  | .vStr _ => "\x27str\x27 object has no attribute \x27strip\x27"
  | .vList _ => "\x27list\x27 object has no attribute \x27strip\x27"
  | .vDict _ => "\x27dict\x27 object has no attribute \x27strip\x27"

/-- The _error_response helper: the record a strategy returns when any
exception is caught at its boundary. -/
def _error_response (e : String) : CallResult :=
  ⟨false, .vStr "", .vNone, -1, some ("Error calling model: " ++ e), []⟩

/-- Result of the direct strategy.  resp.get("text" or "") evaluates to
resp["text"] (the key is always present); .strip() on a non-str raises and
the except arm returns _error_response, as does an exception escaping the
transport call. -/
def direct_result (o : Oracle) (n : Nat) (question : String) : CallResult :=
  match cmc_result o n question directSystem 128 with
  | .error e => _error_response e
  | .ok resp =>
    match resp.text with
    | .vStr s =>
      ⟨resp.ok, .vStr (extract_final_answer (pyStrip s)), resp.raw, resp.status,
        resp.error, resp.headers⟩
    | v => _error_response (stripAttrMsg v)

/-- The direct strategy with the one transport request it issues. -/
def direct (o : Oracle) (n : Nat) (question : String) : CallResult × List Request :=
  (direct_result o n question, [⟨question, directSystem, 128⟩])

/-- The chain-of-thought prompt: an f-string whose first line is empty and
whose body is indented four spaces, then stripped. -/
def cotPrompt (question : String) : String :=
  pyStrip ("\n    You are a careful reasoning assistant.\n    Question: " ++ question ++
    "\n    First, think through the problem step-by-step. Then, on a new line, write:\n    Final answer: <your short final answer here>")

/-- Result of the chain_of_thought strategy: default system prompt, token
budget 256, answer run through the extractor after stripping. -/
def chain_of_thought_result (o : Oracle) (n : Nat) (question : String) : CallResult :=
  match cmc_result o n (cotPrompt question) defaultSystem 256 with
  | .error e => _error_response e
  | .ok resp =>
    match resp.text with
    | .vStr s =>
      ⟨resp.ok, .vStr (extract_final_answer (pyStrip s)), resp.raw, resp.status,
        resp.error, resp.headers⟩
    | v => _error_response (stripAttrMsg v)

/-- The chain_of_thought strategy with its one transport request. -/
def chain_of_thought (o : Oracle) (n : Nat) (question : String) : CallResult × List Request :=
  (chain_of_thought_result o n question, [⟨cotPrompt question, defaultSystem, 256⟩])

/-- The self-refine prompt; the embedded initial answer goes through the
f-string conversion, that is Python str. -/
def refinePrompt (question : String) (initialAnswer : PyVal) : String :=
  pyStrip ("You are a careful, self-checking assistant.\n    Question: " ++ question ++
    "\n    Initial Answer: " ++ pyToStr initialAnswer ++
    "\n    1. Check whether the initial answer is logically and mathematically correct.\n    2. If it is correct, keep it.\n    3. If it is not correct, fix it.\n    Write any reasoning you need, then on a new line write: Final answer: <your corrected short final answer>")

/-- Result of the self_refine strategy: default system prompt, token
budget 512, answer run through the extractor after stripping. -/
def self_refine_result (o : Oracle) (n : Nat) (question : String) (initialAnswer : PyVal) :
    CallResult :=
  match cmc_result o n (refinePrompt question initialAnswer) defaultSystem 512 with
  | .error e => _error_response e
  | .ok resp =>
    match resp.text with
    | .vStr s =>
      ⟨resp.ok, .vStr (extract_final_answer (pyStrip s)), resp.raw, resp.status,
        resp.error, resp.headers⟩
    | v => _error_response (stripAttrMsg v)

/-- The self_refine strategy with its one transport request. -/
def self_refine (o : Oracle) (n : Nat) (question : String) (initialAnswer : PyVal) :
    CallResult × List Request :=
  (self_refine_result o n question initialAnswer,
    [⟨refinePrompt question initialAnswer, defaultSystem, 512⟩])

/-- The composite reasoning strategy.  The try around self_refine is not
modelled separately: the embedded self_refine is total because the source
catches every exception inside self_refine itself, so the except arm that
returns the chain-of-thought result is unreachable, and a hypothetical
exception would be handled exactly like a non-success result. -/
def reasoning_strategy (o : Oracle) (n : Nat) (question : String) :
    CallResult × List Request :=
  let c := chain_of_thought o n question
  if c.1.ok = false then
    let d := direct o (n + c.2.length) question
    (d.1, c.2 ++ d.2)
  else
    let r := self_refine o (n + c.2.length) question c.1.text
    if r.1.ok = true then (r.1, c.2 ++ r.2) else (c.1, c.2 ++ r.2)

/-- Result of the coding strategy: code is returned verbatim after
stripping, the extractor is not applied. -/
def coding_result (o : Oracle) (n : Nat) (question : String) : CallResult :=
  match cmc_result o n question codingSystem 512 with
  | .error e => _error_response e
  | .ok resp =>
    match resp.text with
    | .vStr s => ⟨resp.ok, .vStr (pyStrip s), resp.raw, resp.status, resp.error, resp.headers⟩
    | v => _error_response (stripAttrMsg v)

/-- The coding strategy with its one transport request. -/
def coding (o : Oracle) (n : Nat) (question : String) : CallResult × List Request :=
  (coding_result o n question, [⟨question, codingSystem, 512⟩])

/-- Result of the prediction strategy: output is returned verbatim after
stripping, the extractor is not applied. -/
def prediction_result (o : Oracle) (n : Nat) (question : String) : CallResult :=
  match cmc_result o n question predictionSystem 512 with
  | .error e => _error_response e
  | .ok resp =>
    match resp.text with
    | .vStr s => ⟨resp.ok, .vStr (pyStrip s), resp.raw, resp.status, resp.error, resp.headers⟩
    | v => _error_response (stripAttrMsg v)

/-- The prediction strategy with its one transport request. -/
def prediction (o : Oracle) (n : Nat) (question : String) : CallResult × List Request :=
  (prediction_result o n question, [⟨question, predictionSystem, 512⟩])

def PREDICTION_KEYWORDS : List String :=
  ["predict", "forecast", "will happen", "future", "in the year", "by 20", "by 202",
   "next decade", "next year", "next month", "next week", "next century",
   "in 5 years", "in 10 years", "in 50 years", "in 100 years",
   "trends", "emerging", "developments", "advancements", "evolution",
   "projections", "anticipated", "expected", "likely to", "could be", "might be"]

def CODING_KEYWORDS : List String :=
  ["code", "function", "class", "script", "program", "bug", "traceback",
   "syntaxerror", "runtimeerror", "compile error", "compilation error",
   "stack trace"]

def CODING_LANGUAGES : List String :=
  ["python", "java", "javascript", "c++", "c#", "rust", "go",
   "typescript", "ruby", "php", "swift", "kotlin", "html", "css", "sql"]

def MATH_KEYWORDS : List String :=
  ["calculate", "compute", "evaluate", "what is", "find the value of",
   "determine", "solve", "integrate", "differentiate", "sum of",
   "product of", "plus", "minus", "times", "divided by",
   "equation", "formula", "algebra", "geometry", "trigonometry", "calculus"]

/-- guess_question_type from src/agent.py: substring matching over the
lowered question, prediction first, then coding, then math, else default. -/
def guess_question_type (question : String) : String :=
  let q := lowerL question.data
  if PREDICTION_KEYWORDS.any (fun kw => containsSub q kw) then "future_prediction"
  else if containsSub q "```" || CODING_KEYWORDS.any (fun kw => containsSub q kw)
      || CODING_LANGUAGES.any (fun kw => containsSub q kw) then "coding"
  else if MATH_KEYWORDS.any (fun kw => containsSub q kw) then "math"
  else "default"

/-- strategy_map.get(question_type, strategy_map["default"]): the labels
coding, future_prediction, math map to their strategies; the label default
and every unmapped label fall back to direct. -/
def strategy_map_get (label : String) :
    Oracle → Nat → String → CallResult × List Request :=
  if label = "coding" then coding
  else if label = "future_prediction" then prediction
  else if label = "math" then reasoning_strategy
  else direct

/-- Body of run_agent up to the final resp.get("text", ""): classify, run
the selected strategy from call index 0, and on a failed result run direct
once as the only fallback. -/
def run_agent_resp (o : Oracle) (q : String) : CallResult × List Request :=
  let p := strategy_map_get (guess_question_type q) o 0 q
  if p.1.ok = false then
    let d := direct o p.2.length q
    (d.1, p.2 ++ d.2)
  else p

/-- run_agent from src/agent.py.  The source returns resp.get("text", "");
the key text is present in every record the strategies produce, so the
returned Python value is the text field itself. -/
def run_agent (o : Oracle) (q : String) : PyVal := (run_agent_resp o q).1.text

lemma dropLeadWS_idem (l : List Char) : dropLeadWS (dropLeadWS l) = dropLeadWS l := by
  induction l with
  | nil => rfl
  | cons c cs ih =>
    by_cases h : pyWS c = true
    · simp [dropLeadWS, h, ih]
    · simp [dropLeadWS, h]

lemma dropLeadWS_length (l : List Char) : (dropLeadWS l).length ≤ l.length := by
  induction l with
  | nil => simp [dropLeadWS]
  | cons c cs ih =>
    by_cases h : pyWS c = true
    · simp only [dropLeadWS, h, if_true]
      exact ih.trans (Nat.le_succ _)
    · simp [dropLeadWS, h]

lemma dropLeadWS_suffix (l : List Char) : ∃ t, t ++ dropLeadWS l = l := by
  induction l with
  | nil => exact ⟨[], rfl⟩
  | cons c cs ih =>
    by_cases h : pyWS c = true
    · obtain ⟨t, ht⟩ := ih
      exact ⟨c :: t, by simp [dropLeadWS, h, ht]⟩
    · exact ⟨[], by simp [dropLeadWS, h]⟩

lemma dropLeadWS_of_prefix (u t l : List Char) (h : u ++ t = l)
    (hl : dropLeadWS l = l) : dropLeadWS u = u := by
  cases u with
  | nil => rfl
  | cons c cs =>
    by_cases hc : pyWS c = true
    · exfalso
      subst h
      simp only [List.cons_append, dropLeadWS, hc, if_true] at hl
      have h1 : (dropLeadWS (cs ++ t)).length ≤ (cs ++ t).length := dropLeadWS_length _
      have h2 : (dropLeadWS (cs ++ t)).length = (c :: (cs ++ t)).length :=
        congrArg List.length hl
      simp only [List.length_append, List.length_cons] at h1 h2
      omega
    · simp [dropLeadWS, hc]

lemma dropTrailWS_prefix (l : List Char) : ∃ t, dropTrailWS l ++ t = l := by
  obtain ⟨t, ht⟩ := dropLeadWS_suffix l.reverse
  refine ⟨t.reverse, ?_⟩
  have := congrArg List.reverse ht
  simpa [dropTrailWS, List.reverse_append] using this

lemma dropLeadWS_stripL (l : List Char) : dropLeadWS (stripL l) = stripL l := by
  obtain ⟨t, ht⟩ := dropTrailWS_prefix (dropLeadWS l)
  exact dropLeadWS_of_prefix _ _ _ ht (dropLeadWS_idem l)

lemma dropTrailWS_idem (l : List Char) : dropTrailWS (dropTrailWS l) = dropTrailWS l := by
  simp [dropTrailWS, dropLeadWS_idem]

lemma stripL_idem (l : List Char) : stripL (stripL l) = stripL l := by
  have h1 : stripL (stripL l) = dropTrailWS (stripL l) := by
    rw [stripL, dropLeadWS_stripL]
  rw [h1, stripL, dropTrailWS_idem]

lemma stripL_dropLeadWS (l : List Char) : stripL (dropLeadWS l) = stripL l := by
  simp [stripL, dropLeadWS_idem]

/-- Every output of the extractor is a fixed point of stripping. -/
lemma extract_strip_fixed (t : String) :
    pyStrip (extract_final_answer t) = extract_final_answer t := by
  unfold extract_final_answer
  by_cases he : t = ""
  · simp [he, pyStrip, stripL, dropTrailWS, dropLeadWS]
  · rw [if_neg he]
    cases hf : findSub finalAnswerMarker (lowerL t.data) with
    | some i =>
      show pyStrip (String.mk (stripL _)) = _
      simp [pyStrip, stripL_idem]
    | none =>
      show pyStrip (pyStrip t) = pyStrip t
      simp [pyStrip, stripL_idem]

/-- Case analysis of the transport record: the success flag, the presence
of an error message, and the vanishing of the text field on failure. -/
lemma cmc_result_spec (o : Oracle) (n : Nat) (p s : String) (m : Nat) (r : CallResult)
    (h : cmc_result o n p s m = Except.ok r) :
    (r.error.isSome ↔ r.ok = false) ∧
    (r.ok = false → r.text = PyVal.vNone) ∧
    (r.ok = true ↔ ∃ hdrs raw data t, o n = TransportOutcome.response 200 hdrs (Except.ok data) raw ∧
        extractContent data = Except.ok t) := by
  unfold cmc_result at h
  split at h
  next d heq =>
    cases h
    refine ⟨by simp, fun _ => rfl, ?_⟩
    constructor
    · intro hok
      simp at hok
    · rintro ⟨hdrs, raw, data, t, hresp, -⟩
      rw [heq] at hresp
      cases hresp
  next status hdrs body rawText heq =>
    split at h
    next hst =>
      subst hst
      split at h
      next data =>
        split at h
        next t hE =>
          cases h
          refine ⟨by simp, ?_, ?_⟩
          · intro hok
            simp at hok
          · exact ⟨fun _ => ⟨hdrs, rawText, data, t, heq, hE⟩, fun _ => rfl⟩
        next e hE =>
          cases h
      next e =>
        cases h
        refine ⟨by simp, fun _ => rfl, ?_⟩
        constructor
        · intro hok
          simp at hok
        · rintro ⟨hdrs2, raw2, data2, t2, hresp, -⟩
          rw [heq] at hresp
          injection hresp with h1 h2 h3 h4
          exact Except.noConfusion h3
    next hst =>
      cases h
      refine ⟨by simp, fun _ => rfl, ?_⟩
      constructor
      · intro hok
        simp at hok
      · rintro ⟨hdrs2, raw2, data2, t2, hresp, -⟩
        rw [heq] at hresp
        injection hresp with h1 h2 h3 h4
        exact absurd h1 hst

lemma direct_result_text_str (o : Oracle) (n : Nat) (q : String) :
    ∃ s, (direct_result o n q).text = PyVal.vStr s := by
  unfold direct_result
  split
  · exact ⟨"", rfl⟩
  · split
    · exact ⟨_, rfl⟩
    · exact ⟨"", rfl⟩

lemma chain_of_thought_result_text_str (o : Oracle) (n : Nat) (q : String) :
    ∃ s, (chain_of_thought_result o n q).text = PyVal.vStr s := by
  unfold chain_of_thought_result
  split
  · exact ⟨"", rfl⟩
  · split
    · exact ⟨_, rfl⟩
    · exact ⟨"", rfl⟩

lemma self_refine_result_text_str (o : Oracle) (n : Nat) (q : String) (a : PyVal) :
    ∃ s, (self_refine_result o n q a).text = PyVal.vStr s := by
  unfold self_refine_result
  split
  · exact ⟨"", rfl⟩
  · split
    · exact ⟨_, rfl⟩
    · exact ⟨"", rfl⟩

lemma coding_result_text_str (o : Oracle) (n : Nat) (q : String) :
    ∃ s, (coding_result o n q).text = PyVal.vStr s := by
  unfold coding_result
  split
  · exact ⟨"", rfl⟩
  · split
    · exact ⟨_, rfl⟩
    · exact ⟨"", rfl⟩

lemma prediction_result_text_str (o : Oracle) (n : Nat) (q : String) :
    ∃ s, (prediction_result o n q).text = PyVal.vStr s := by
  unfold prediction_result
  split
  · exact ⟨"", rfl⟩
  · split
    · exact ⟨_, rfl⟩
    · exact ⟨"", rfl⟩

lemma reasoning_strategy_text_str (o : Oracle) (n : Nat) (q : String) :
    ∃ s, (reasoning_strategy o n q).1.text = PyVal.vStr s := by
  unfold reasoning_strategy
  simp only
  split
  · exact direct_result_text_str o _ q
  · split
    · exact self_refine_result_text_str o _ q _
    · exact chain_of_thought_result_text_str o n q

lemma strategy_map_get_text_str (label : String) (o : Oracle) (n : Nat) (q : String) :
    ∃ s, ((strategy_map_get label) o n q).1.text = PyVal.vStr s := by
  unfold strategy_map_get
  split
  · exact coding_result_text_str o n q
  · split
    · exact prediction_result_text_str o n q
    · split
      · exact reasoning_strategy_text_str o n q
      · exact direct_result_text_str o n q

lemma run_agent_resp_text_str (o : Oracle) (q : String) :
    ∃ s, (run_agent_resp o q).1.text = PyVal.vStr s := by
  unfold run_agent_resp
  simp only
  split
  · exact direct_result_text_str o _ q
  · exact strategy_map_get_text_str _ o 0 q

lemma direct_result_fail (o : Oracle) (n : Nat) (q : String) (r : CallResult)
    (h : cmc_result o n q directSystem 128 = Except.ok r) (hok : r.ok = false) :
    direct_result o n q = _error_response (stripAttrMsg PyVal.vNone) := by
  have ht : r.text = PyVal.vNone := (cmc_result_spec o n q directSystem 128 r h).2.1 hok
  simp [direct_result, h, ht]

lemma chain_of_thought_result_fail (o : Oracle) (n : Nat) (q : String) (r : CallResult)
    (h : cmc_result o n (cotPrompt q) defaultSystem 256 = Except.ok r) (hok : r.ok = false) :
    chain_of_thought_result o n q = _error_response (stripAttrMsg PyVal.vNone) := by
  have ht : r.text = PyVal.vNone := (cmc_result_spec o n _ defaultSystem 256 r h).2.1 hok
  simp [chain_of_thought_result, h, ht]

lemma self_refine_result_fail (o : Oracle) (n : Nat) (q : String) (a : PyVal) (r : CallResult)
    (h : cmc_result o n (refinePrompt q a) defaultSystem 512 = Except.ok r) (hok : r.ok = false) :
    self_refine_result o n q a = _error_response (stripAttrMsg PyVal.vNone) := by
  have ht : r.text = PyVal.vNone := (cmc_result_spec o n _ defaultSystem 512 r h).2.1 hok
  simp [self_refine_result, h, ht]

lemma coding_result_fail (o : Oracle) (n : Nat) (q : String) (r : CallResult)
    (h : cmc_result o n q codingSystem 512 = Except.ok r) (hok : r.ok = false) :
    coding_result o n q = _error_response (stripAttrMsg PyVal.vNone) := by
  have ht : r.text = PyVal.vNone := (cmc_result_spec o n q codingSystem 512 r h).2.1 hok
  simp [coding_result, h, ht]

lemma prediction_result_fail (o : Oracle) (n : Nat) (q : String) (r : CallResult)
    (h : cmc_result o n q predictionSystem 512 = Except.ok r) (hok : r.ok = false) :
    prediction_result o n q = _error_response (stripAttrMsg PyVal.vNone) := by
  have ht : r.text = PyVal.vNone := (cmc_result_spec o n q predictionSystem 512 r h).2.1 hok
  simp [prediction_result, h, ht]

/-- A well-formed chat-completion response body carrying the given answer. -/
def goodData (ans : String) : PyVal :=
  .vDict [("choices", .vList [.vDict [("message", .vDict [("content", .vStr ans)])]])]

/-- Environment in which every HTTP call succeeds with answer text yes. -/
def oracleOkYes : Oracle := fun _ => .response 200 [] (.ok (goodData "yes")) ""

/-- Environment in which every HTTP call raises a transport fault. -/
def oracleFault : Oracle := fun _ => .fault "Connection refused"

/-- Environment in which every call succeeds but the answer after the
marker is empty. -/
def oracleEmptyAnswer : Oracle := fun _ => .response 200 [] (.ok (goodData "Final answer:")) ""

/-- The record produced by the transport under oracleOkYes. -/
def okYesResult : CallResult := ⟨true, .vStr "yes", goodData "yes", 200, none, []⟩

/-- A transport request is a self-refine request exactly when it uses the
default system prompt with the 512 token budget, the combination unique to
self_refine among the strategies. -/
def isSelfRefineRequest (r : Request) : Bool :=
  r.system == defaultSystem && r.maxTokens == 512

/-- C3: for every text containing the marker Final answer: (matched
case-insensitively, arbitrary preceding text allowed) the Extractor
returns the content after the marker trimmed of surrounding whitespace;
for text without the marker it returns the trimmed input; the empty input
yields the empty string. -/
theorem C3_extractor_contract (t : String) :
    (∀ i, findSub finalAnswerMarker (lowerL t.data) = some i →
        extract_final_answer t =
          String.mk (stripL (t.data.drop (i + finalAnswerMarker.length)))) ∧
    (findSub finalAnswerMarker (lowerL t.data) = none →
        extract_final_answer t = pyStrip t) ∧
    extract_final_answer "" = "" := by
  refine ⟨?_, ?_, rfl⟩
  · intro i hi
    by_cases he : t = ""
    · subst he
      have hnone : findSub finalAnswerMarker (lowerL ("" : String).data) = none := by decide
      rw [hnone] at hi
      cases hi
    · simp only [extract_final_answer, if_neg he, hi]
      rw [stripL_dropLeadWS]
  · intro hn
    by_cases he : t = ""
    · subst he
      decide
    · simp only [extract_final_answer, if_neg he, hn]

/-- Witness for C3 at a text with leading reasoning and the marker at
index 15. -/
theorem C3_extractor_contract_witness :
    findSub finalAnswerMarker (lowerL ("The reasoning.\nFinal answer: 42").data) = some 15 ∧
    extract_final_answer "The reasoning.\nFinal answer: 42" = "42" := by
  refine ⟨by decide, ?_⟩
  have h := (C3_extractor_contract "The reasoning.\nFinal answer: 42").1 15 (by decide)
  rw [h]
  decide

/-- C4 as stated is false: when the extracted content itself still
contains the marker, a second application extracts again.  Counterexample
evaluated on a concrete input. -/
theorem C4_idempotence_counterexample :
    extract_final_answer (extract_final_answer "Final answer: Final answer: x") ≠
      extract_final_answer "Final answer: Final answer: x" := by decide

/-- C4 amended: the Extractor is idempotent on every input whose
single-extraction result is free of the marker (case-insensitively); the
unamended claim fails exactly when the extracted content still contains
the marker. -/
theorem C4_extractor_idempotent_marker_free (t : String)
    (h : findSub finalAnswerMarker (lowerL (extract_final_answer t).data) = none) :
    extract_final_answer (extract_final_answer t) = extract_final_answer t := by
  have hs := extract_strip_fixed t
  by_cases he : extract_final_answer t = ""
  · rw [he]
    decide
  · generalize hgen : extract_final_answer t = s at h he hs ⊢
    simp only [extract_final_answer, if_neg he, h]
    exact hs

/-- Witness for the amended C4 at a marker-free extraction result. -/
theorem C4_extractor_idempotent_witness :
    findSub finalAnswerMarker (lowerL (extract_final_answer "Final answer: 42").data) = none ∧
    extract_final_answer (extract_final_answer "Final answer: 42") =
      extract_final_answer "Final answer: 42" :=
  ⟨by decide, C4_extractor_idempotent_marker_free "Final answer: 42" (by decide)⟩

/-- C5: a question whose lowered text contains both a prediction keyword
and a coding keyword classifies as future_prediction, because the
prediction rule is evaluated before the coding rule in the fixed order
prediction, coding, math, default. -/
theorem C5_prediction_precedes_coding (q : String)
    (hp : PREDICTION_KEYWORDS.any (fun kw => containsSub (lowerL q.data) kw) = true)
    (hc : CODING_KEYWORDS.any (fun kw => containsSub (lowerL q.data) kw) = true) :
    guess_question_type q = "future_prediction" := by
  simp only [guess_question_type]
  rw [if_pos hp]

/-- Witness for C5: a question with both a prediction and a coding
keyword. -/
theorem C5_prediction_precedes_coding_witness :
    PREDICTION_KEYWORDS.any (fun kw => containsSub (lowerL ("Predict the bug").data) kw) = true ∧
    CODING_KEYWORDS.any (fun kw => containsSub (lowerL ("Predict the bug").data) kw) = true ∧
    guess_question_type "Predict the bug" = "future_prediction" :=
  ⟨by decide, by decide, C5_prediction_precedes_coding "Predict the bug" (by decide) (by decide)⟩

/-- C6 as stated is false: the question What is the capital of France?
contains the math keyword what is, so the classifier returns math, not
default. -/
theorem C6_classification_counterexample :
    guess_question_type "What is the capital of France?" = "math" ∧
    guess_question_type "What is the capital of France?" ≠ "default" :=
  ⟨by decide, by decide⟩

/-- C6 amended: the question What is the capital of France? is classified
as math, and the Dispatcher consequently invokes the composite reasoning
strategy for it (with direct only as the usual failure fallback). -/
theorem C6_france_question_is_math (o : Oracle) :
    guess_question_type "What is the capital of France?" = "math" ∧
    strategy_map_get "math" = reasoning_strategy ∧
    run_agent_resp o "What is the capital of France?" =
      (if (reasoning_strategy o 0 "What is the capital of France?").1.ok = false
       then ((direct o (reasoning_strategy o 0 "What is the capital of France?").2.length
                "What is the capital of France?").1,
             (reasoning_strategy o 0 "What is the capital of France?").2 ++
               (direct o (reasoning_strategy o 0 "What is the capital of France?").2.length
                 "What is the capital of France?").2)
       else reasoning_strategy o 0 "What is the capital of France?") := by
  have hg : guess_question_type "What is the capital of France?" = "math" := by decide
  have hsm : strategy_map_get "math" = reasoning_strategy := by
    unfold strategy_map_get
    rw [if_neg (by decide), if_neg (by decide), if_pos rfl]
  refine ⟨hg, hsm, ?_⟩
  simp only [run_agent_resp]
  rw [hg, hsm]

/-- C7: every Call Result the Transport produces has its success flag true
exactly when the HTTP status is 200 and the answer text was read without
exception, and carries an error message exactly when the success flag is
false. -/
theorem C7_call_result_invariant (o : Oracle) (n : Nat) (p s : String) (m : Nat)
    (r : CallResult) (h : (call_model_chat_completions o n p s m).1 = Except.ok r) :
    (r.error.isSome ↔ r.ok = false) ∧
    (r.ok = true ↔ ∃ hdrs raw data t,
        o n = TransportOutcome.response 200 hdrs (Except.ok data) raw ∧
        extractContent data = Except.ok t) := by
  have hs := cmc_result_spec o n p s m r h
  exact ⟨hs.1, hs.2.2⟩

/-- Witness for C7 in an environment where the call succeeds. -/
theorem C7_call_result_invariant_witness :
    (call_model_chat_completions oracleOkYes 0 "p" "s" 128).1 = Except.ok okYesResult ∧
    ((okYesResult.error.isSome ↔ okYesResult.ok = false) ∧
      (okYesResult.ok = true ↔ ∃ hdrs raw data t,
          oracleOkYes 0 = TransportOutcome.response 200 hdrs (Except.ok data) raw ∧
          extractContent data = Except.ok t)) :=
  ⟨rfl, C7_call_result_invariant oracleOkYes 0 "p" "s" 128 okYesResult rfl⟩

/-- C8: a transport-level fault is never re-raised: the Transport returns
normally with success flag false, status -1 and the fault description as a
non-empty error message. -/
theorem C8_transport_fault_handling (o : Oracle) (n : Nat) (p s : String) (m : Nat)
    (d : String) (h : o n = TransportOutcome.fault d) (hd : d ≠ "") :
    call_model_chat_completions o n p s m =
      (Except.ok ⟨false, PyVal.vNone, PyVal.vNone, -1, some d, []⟩, [⟨p, s, m⟩]) ∧
    d ≠ "" := by
  refine ⟨?_, hd⟩
  unfold call_model_chat_completions cmc_result
  rw [h]

/-- Witness for C8 at a concrete connection fault. -/
theorem C8_transport_fault_handling_witness :
    call_model_chat_completions oracleFault 0 "p" "s" 128 =
      (Except.ok ⟨false, PyVal.vNone, PyVal.vNone, -1, some "Connection refused", []⟩,
        [⟨"p", "s", 128⟩]) ∧
    ("Connection refused" : String) ≠ "" :=
  C8_transport_fault_handling oracleFault 0 "p" "s" 128 "Connection refused" rfl (by decide)

/-- C1: the Dispatcher classifies the question, selects the mapped
strategy (direct for any unmapped label), invokes it, and on a failed
result invokes direct exactly once as the final fallback, returning that
result as-is even when it also fails: the fallback contributes exactly the
one direct transport request and nothing follows it. -/
theorem C1_dispatcher_fallback (o : Oracle) (q : String) :
    (∀ label : String, label ≠ "coding" → label ≠ "future_prediction" → label ≠ "math" →
        strategy_map_get label = direct) ∧
    ((strategy_map_get (guess_question_type q) o 0 q).1.ok = true →
        run_agent_resp o q = strategy_map_get (guess_question_type q) o 0 q) ∧
    ((strategy_map_get (guess_question_type q) o 0 q).1.ok = false →
        run_agent_resp o q =
          ((direct o (strategy_map_get (guess_question_type q) o 0 q).2.length q).1,
            (strategy_map_get (guess_question_type q) o 0 q).2 ++
              (direct o (strategy_map_get (guess_question_type q) o 0 q).2.length q).2) ∧
        (direct o (strategy_map_get (guess_question_type q) o 0 q).2.length q).2 =
          [⟨q, directSystem, 128⟩]) := by
  refine ⟨?_, ?_, ?_⟩
  · intro label h1 h2 h3
    unfold strategy_map_get
    rw [if_neg h1, if_neg h2, if_neg h3]
  · intro h
    simp only [run_agent_resp]
    rw [if_neg (by simp [h])]
  · intro h
    refine ⟨?_, rfl⟩
    simp only [run_agent_resp]
    rw [if_pos h]

/-- Witness for C1 in an environment where every call faults, so the
selected strategy fails and the single direct fallback also fails. -/
theorem C1_dispatcher_fallback_witness :
    run_agent_resp oracleFault "hello" =
      ((direct oracleFault
          (strategy_map_get (guess_question_type "hello") oracleFault 0 "hello").2.length
          "hello").1,
        (strategy_map_get (guess_question_type "hello") oracleFault 0 "hello").2 ++
          (direct oracleFault
            (strategy_map_get (guess_question_type "hello") oracleFault 0 "hello").2.length
            "hello").2) :=
  ((C1_dispatcher_fallback oracleFault "hello").2.2 (by decide)).1

/-- C2: the composite reasoning strategy runs chain-of-thought first; if
it fails the returned result is exactly direct on the same question and no
self-refine request is ever issued; if it succeeds, self-refine runs on
the question and the chain-of-thought answer, its result is returned when
it succeeds and the chain-of-thought result otherwise (the embedded
self_refine is total because the source catches every exception inside it,
so an exception from self-refinement and a non-success result coincide in
the model). -/
theorem C2_reasoning_strategy_contract (o : Oracle) (n : Nat) (q : String) :
    ((chain_of_thought o n q).1.ok = false →
        reasoning_strategy o n q =
          ((direct o (n + (chain_of_thought o n q).2.length) q).1,
            (chain_of_thought o n q).2 ++
              (direct o (n + (chain_of_thought o n q).2.length) q).2) ∧
        ∀ r ∈ (reasoning_strategy o n q).2, isSelfRefineRequest r = false) ∧
    ((chain_of_thought o n q).1.ok = true →
        reasoning_strategy o n q =
          (if (self_refine o (n + (chain_of_thought o n q).2.length) q
                (chain_of_thought o n q).1.text).1.ok = true
           then (self_refine o (n + (chain_of_thought o n q).2.length) q
                (chain_of_thought o n q).1.text).1
           else (chain_of_thought o n q).1,
            (chain_of_thought o n q).2 ++
              (self_refine o (n + (chain_of_thought o n q).2.length) q
                (chain_of_thought o n q).1.text).2)) := by
  constructor
  · intro h
    have heq : reasoning_strategy o n q =
        ((direct o (n + (chain_of_thought o n q).2.length) q).1,
          (chain_of_thought o n q).2 ++
            (direct o (n + (chain_of_thought o n q).2.length) q).2) := by
      simp only [reasoning_strategy]
      rw [if_pos h]
    refine ⟨heq, ?_⟩
    intro r hr
    rw [heq] at hr
    simp only [chain_of_thought, direct, List.mem_append, List.mem_singleton] at hr
    rcases hr with h1 | h1 <;> subst h1 <;> rfl
  · intro h
    simp only [reasoning_strategy]
    rw [if_neg (by simp [h])]
    by_cases hr : (self_refine o (n + (chain_of_thought o n q).2.length) q
        (chain_of_thought o n q).1.text).1.ok = true
    · rw [if_pos hr, if_pos hr]
    · rw [if_neg hr, if_neg hr]

/-- Witness for C2 in an environment where chain-of-thought fails, so the
composite strategy returns the direct result. -/
theorem C2_reasoning_strategy_contract_witness :
    reasoning_strategy oracleFault 0 "x" =
      ((direct oracleFault (0 + (chain_of_thought oracleFault 0 "x").2.length) "x").1,
        (chain_of_thought oracleFault 0 "x").2 ++
          (direct oracleFault (0 + (chain_of_thought oracleFault 0 "x").2.length) "x").2) :=
  ((C2_reasoning_strategy_contract oracleFault 0 "x").1 (by decide)).1

/-- C9 as stated is false: run_agent returns only the text field, so two
environments whose final Call Results differ in the success flag can
produce identical return values, which a (success flag, answer text) pair
never could. -/
theorem C9_pair_counterexample :
    run_agent oracleEmptyAnswer "hello" = run_agent oracleFault "hello" ∧
    (run_agent_resp oracleEmptyAnswer "hello").1.ok = true ∧
    (run_agent_resp oracleFault "hello").1.ok = false :=
  ⟨rfl, rfl, rfl⟩

/-- C9 amended: the caller-facing entry point returns only the final Call
Result answer text (always a str), not a (success flag, answer text)
pair. -/
theorem C9_run_agent_text_only (o : Oracle) (q : String) :
    run_agent o q = (run_agent_resp o q).1.text ∧
    ∃ s, run_agent o q = PyVal.vStr s :=
  ⟨rfl, run_agent_resp_text_str o q⟩

/-- C10: whenever the underlying transport call of any of the five
strategies returns a failed Call Result, the strategy returns the fixed
record with status -1, empty text and an error message beginning with
Error calling model: (the original HTTP status and error body do not
appear in it), because text is None on failure and .strip() raises. -/
theorem C10_strategy_error_masking (o : Oracle) (n : Nat) (q : String) (a : PyVal) :
    (∀ r, (call_model_chat_completions o n q directSystem 128).1 = Except.ok r →
        r.ok = false →
        direct o n q =
          (_error_response (stripAttrMsg PyVal.vNone), [⟨q, directSystem, 128⟩])) ∧
    (∀ r, (call_model_chat_completions o n (cotPrompt q) defaultSystem 256).1 = Except.ok r →
        r.ok = false →
        chain_of_thought o n q =
          (_error_response (stripAttrMsg PyVal.vNone), [⟨cotPrompt q, defaultSystem, 256⟩])) ∧
    (∀ r, (call_model_chat_completions o n (refinePrompt q a) defaultSystem 512).1 =
          Except.ok r →
        r.ok = false →
        self_refine o n q a =
          (_error_response (stripAttrMsg PyVal.vNone),
            [⟨refinePrompt q a, defaultSystem, 512⟩])) ∧
    (∀ r, (call_model_chat_completions o n q codingSystem 512).1 = Except.ok r →
        r.ok = false →
        coding o n q =
          (_error_response (stripAttrMsg PyVal.vNone), [⟨q, codingSystem, 512⟩])) ∧
    (∀ r, (call_model_chat_completions o n q predictionSystem 512).1 = Except.ok r →
        r.ok = false →
        prediction o n q =
          (_error_response (stripAttrMsg PyVal.vNone), [⟨q, predictionSystem, 512⟩])) ∧
    (_error_response (stripAttrMsg PyVal.vNone)).ok = false ∧
    (_error_response (stripAttrMsg PyVal.vNone)).status = -1 ∧
    (_error_response (stripAttrMsg PyVal.vNone)).text = PyVal.vStr "" ∧
    ∃ msg, (_error_response (stripAttrMsg PyVal.vNone)).error = some msg ∧
        ("Error calling model:").data.isPrefixOf msg.data = true := by
  refine ⟨?_, ?_, ?_, ?_, ?_, rfl, rfl, rfl, ⟨_, rfl, by decide⟩⟩
  · intro r h hok
    unfold direct
    rw [direct_result_fail o n q r h hok]
  · intro r h hok
    unfold chain_of_thought
    rw [chain_of_thought_result_fail o n q r h hok]
  · intro r h hok
    unfold self_refine
    rw [self_refine_result_fail o n q a r h hok]
  · intro r h hok
    unfold coding
    rw [coding_result_fail o n q r h hok]
  · intro r h hok
    unfold prediction
    rw [prediction_result_fail o n q r h hok]

/-- Witness for C10: under a transport fault the direct strategy returns
the masked error record. -/
theorem C10_strategy_error_masking_witness :
    direct oracleFault 0 "hi" =
      (_error_response (stripAttrMsg PyVal.vNone), [⟨"hi", directSystem, 128⟩]) :=
  (C10_strategy_error_masking oracleFault 0 "hi" PyVal.vNone).1
    ⟨false, PyVal.vNone, PyVal.vNone, -1, some "Connection refused", []⟩ rfl rfl

end Agent
